import Mathlib

/-!
Verification of the fusionsolar2mqtt core against its specification.

The development shallowly embeds the pure core of
`src/fusionsolar/fusionsolar.py`:

* `compute_plant_data` (the metrics composer, lines 117-161),
* `data_to_dict` (the reflection-based field exporter, lines 45-73),
* the normalization tail of `get_realtime_data` (lines 103-114), and
* `get_devices` (the device registry with its cache fallback, lines 14-42).

Python floats are modelled as rationals (`ℚ`): every arithmetic operation the
composer performs (multiplication by 1000, subtraction, `max`, `min`) is exact
on the values at stake. Python `None`-able locals become `Option`; Python
dicts keyed by strings become association lists with Python's
insert-or-overwrite-in-place update semantics.
-/

namespace FusionSolar

/-- A plant identity: `pyhfs.Plant` as the composer sees it (id and name; the
device collection is carried by the device readings' back-references). -/
structure Plant where
  id : Nat
  name : String
deriving DecidableEq, Repr

/-- Capability-mask bit for production-capable devices. Modelled from the
spec: the exact numeric values of `Device.DEVICE_DATA_TYPES` live in the
external `pyhfs` library; only their being distinct single bits matters. -/
def PRODUCTION : Nat := 1

/-- Capability-mask bit for battery-capable devices. -/
def BATTERY : Nat := 2

/-- Capability-mask bit for meter-capable devices. -/
def METER : Nat := 4

/-- A device: identity, back-reference to its plant, and the capability mask
`dev_data` (bitwise flags, as in `pyhfs.api.devices.Device`). -/
structure Device where
  id : Nat
  name : String
  plant : Plant
  dev_data : Nat
deriving DecidableEq, Repr

/-- The bitwise test `device.dev_data & flag` used by the composer: truthy
iff the bitwise AND is nonzero. -/
def hasCap (d : Device) (flag : Nat) : Bool :=
  d.dev_data.land flag != 0

/-- A device realtime reading (`pyhfs.DeviceRTData`): the three telemetry
fields the composer reads, tied to one device. -/
structure DeviceRTData where
  device : Device
  mppt_power : ℚ
  ch_discharge_power : ℚ
  active_power : ℚ
deriving DecidableEq, Repr

/-- A plant realtime reading (`pyhfs.PlantRealTimeData`): the composer only
uses its `.plant` back-reference. -/
structure PlantRealTimeData where
  plant : Plant
deriving DecidableEq, Repr

/-- The reading is production-capable:
`ddata.device.dev_data & Device.DEVICE_DATA_TYPES.PRODUCTION` (line 136). -/
def isProd (d : DeviceRTData) : Bool := hasCap d.device PRODUCTION

/-- The reading is battery-capable (line 139). -/
def isBat (d : DeviceRTData) : Bool := hasCap d.device BATTERY

/-- The reading is meter-capable (line 143). -/
def isMeter (d : DeviceRTData) : Bool := hasCap d.device METER

/-- The four locals of the composer's inner scan, each initialised to
`None` (line 134): `production, ch_battery, dis_battery, meter`. -/
structure ScanState where
  production : Option ℚ
  ch_battery : Option ℚ
  dis_battery : Option ℚ
  meter : Option ℚ
deriving DecidableEq, Repr

/-- The initial scan state `None, None, None, None`. -/
def initScan : ScanState := ⟨none, none, none, none⟩

/-- One iteration of the composer's scan over a plant's device readings
(lines 135-145): each capability test is an independent `if`, so a device
matching several capabilities executes every matching branch. -/
def scanStep (s : ScanState) (ddata : DeviceRTData) : ScanState :=
  let s := if isProd ddata then { s with production := some (ddata.mppt_power * 1000) } else s
  let s := if isBat ddata then
      { s with ch_battery := some (max ddata.ch_discharge_power 0),
               dis_battery := some (max (-ddata.ch_discharge_power) 0) } else s
  if isMeter ddata then { s with meter := some ddata.active_power } else s

/-- The readings belonging to `plant`:
`[d for d in device_data if d.device.plant == plant]` (line 135). -/
def devsOf (device_data : List DeviceRTData) (plant : Plant) : List DeviceRTData :=
  device_data.filter (fun d => decide (d.device.plant = plant))

/-- The composer's full scan of one plant's readings. -/
def scanPlant (device_data : List DeviceRTData) (plant : Plant) : ScanState :=
  (devsOf device_data plant).foldl scanStep initScan

/-- One plant's emitted `power` record: `production`, `consumption`,
`consumption_pv` always; `ch_battery`/`dis_battery` as optional keys. -/
structure PowerMetrics where
  production : ℚ
  consumption : ℚ
  consumption_pv : ℚ
  ch_battery : Option ℚ
  dis_battery : Option ℚ
deriving DecidableEq, Repr

/-- Python's `(x or 0)` on a `None`-able numeric local: `None` gives `0`,
a number gives itself (`0 or 0` is `0` either way). -/
def orZero (o : Option ℚ) : ℚ := o.getD 0

/-- Lines 147-159: if `production` and `meter` are both set, build the
record; the battery keys are added iff both battery locals are set. -/
def plantMetrics (s : ScanState) : Option PowerMetrics :=
  match s.production, s.meter with
  | some production, some meter =>
    let consumption := production - meter - orZero s.ch_battery + orZero s.dis_battery
    some { production := production
           consumption := consumption
           consumption_pv := min production (consumption + orZero s.ch_battery)
           ch_battery := if s.ch_battery.isSome ∧ s.dis_battery.isSome then s.ch_battery else none
           dis_battery := if s.ch_battery.isSome ∧ s.dis_battery.isSome then s.dis_battery else none }
  | _, _ => none

/-- The keys of `plants = {data.plant: data for data in plant_data}`
(line 130): each plant once, regardless of repeated readings. -/
def plantKeys (plant_data : List PlantRealTimeData) : List Plant :=
  (plant_data.map (·.plant)).dedup

/-- The composer `compute_plant_data` (lines 117-161): for every plant with
a plant-level reading, scan its device readings and emit a power record when
both production and meter were seen. The result dict is an association list
keyed by plant. -/
def compute_plant_data (plant_data : List PlantRealTimeData)
    (device_data : List DeviceRTData) : List (Plant × PowerMetrics) :=
  (plantKeys plant_data).filterMap
    (fun plant => (plantMetrics (scanPlant device_data plant)).map (fun m => (plant, m)))

/-- Lookup of one plant's record in the composer's result dict. -/
def lookupPlant : List (Plant × PowerMetrics) → Plant → Option PowerMetrics
  | [], _ => none
  | x :: t, p => if x.1 = p then some x.2 else lookupPlant t p

/-- The last reading of the scan that satisfies `p`, if any: the value a
repeatedly-overwritten local holds after the loop. -/
def lastSat (p : DeviceRTData → Bool) : List DeviceRTData → Option DeviceRTData
  | [] => none
  | d :: l =>
    match lastSat p l with
    | some x => some x
    | none => if p d then some d else none

/-! ### Exportable values and the reflection-based exporter `data_to_dict` -/

mutual

/-- A Python value as `data_to_dict`'s `isexportable` inspects it: the scalar
kinds of its `isinstance` test (`str`, `int`, `float`, `bool`,
`datetime.datetime` — timestamps modelled by their tick count), lists,
string-keyed dicts, and `obj` for any other object (a back-reference, a raw
wire object). -/
inductive PyVal where
  | str : String → PyVal
  | int : Int → PyVal
  | float : ℚ → PyVal
  | bool : Bool → PyVal
  | datetime : Nat → PyVal
  | obj : PyVal
  | list : PyList → PyVal
  | dict : PyDict → PyVal

/-- A Python list of values. -/
inductive PyList where
  | nil : PyList
  | cons : PyVal → PyList → PyList

/-- A Python string-keyed dict of values, in insertion order. -/
inductive PyDict where
  | nil : PyDict
  | cons : String → PyVal → PyDict → PyDict

end

mutual

/-- The predicate `isexportable` of `data_to_dict` (lines 59-64): a truthy
(nonempty) list or dict defers to its first element/value; everything else
passes iff it is one of the five scalar kinds (an empty list or dict is falsy,
falls through to the `isinstance` test and fails it). -/
def isexportable : PyVal → Bool
  | .str _ => true
  | .int _ => true
  | .float _ => true
  | .bool _ => true
  | .datetime _ => true
  | .obj => false
  | .list l => expHeadList l
  | .dict d => expHeadDict d

/-- `isexportable` on a list: `x and isinstance(x, list)` then `x[0]`. -/
def expHeadList : PyList → Bool
  | .nil => false
  | .cons x _ => isexportable x

/-- `isexportable` on a dict: `x and isinstance(x, dict)` then
`list(x.values())[0]`. -/
def expHeadDict : PyDict → Bool
  | .nil => false
  | .cons _ v _ => isexportable v

end

/-- The exporter `data_to_dict` (lines 45-73). The reflection is modelled by
giving the reading object explicitly as what `inspect.getmembers` discovers:
`classProps` the class's declared property names, `members` the instance's
members in `getmembers` order (name-sorted). Kept are the members that pass
`isexportable` and whose name is a class property. -/
def data_to_dict (classProps : List String) (members : List (String × PyVal)) :
    List (String × PyVal) :=
  members.filter (fun nv => isexportable nv.2 && classProps.contains nv.1)

/-! ### The normalization tail of `get_realtime_data` (lines 103-114) -/

/-- A plant realtime reading as the normalizer sees it: the `.plant`
back-reference plus the reflection view consumed by `data_to_dict`. -/
structure PlantReadingObj where
  plant : Plant
  classProps : List String
  members : List (String × PyVal)

/-- A device realtime reading as the normalizer sees it. -/
structure DeviceReadingObj where
  device : Device
  classProps : List String
  members : List (String × PyVal)

/-- Python `d[k] = v`: overwrite in place if the key exists, else append. -/
def dictSet {α : Type} : List (String × α) → String → α → List (String × α)
  | [], k, v => [(k, v)]
  | (k', v') :: t, k, v =>
    if k' = k then (k', v) :: t else (k', v') :: dictSet t k v

/-- A Python dict comprehension: entries inserted left to right, a repeated
key silently overwriting the earlier value. -/
def dictOf {α : Type} (l : List (String × α)) : List (String × α) :=
  l.foldl (fun m kv => dictSet m kv.1 kv.2) []

/-- Python `d[k]` read access, `none` standing for the `KeyError` case. -/
def dictGet {α : Type} : List (String × α) → String → Option α
  | [], _ => none
  | (k', v) :: t, k => if k' = k then some v else dictGet t k

/-- One plant's `value["power"]` dict as built by the composer
(lines 149-159): three unconditional keys, then the battery keys iff both
battery locals were set. -/
def powerDict (m : PowerMetrics) : PyDict :=
  .cons "production" (.float m.production)
    (.cons "consumption" (.float m.consumption)
      (.cons "consumption_pv" (.float m.consumption_pv)
        (match m.ch_battery, m.dis_battery with
         | some ch, some dis =>
           .cons "ch_battery" (.float ch) (.cons "dis_battery" (.float dis) .nil)
         | _, _ => .nil)))

/-- The flat export mapping `{"plants": ..., "devices": ...}` of
`get_realtime_data`. -/
structure ExportRecord where
  plants : List (String × List (String × PyVal))
  devices : List (String × List (String × PyVal))

/-- The pure normalization tail of `get_realtime_data` (lines 109-114):
plants keyed by plant name, devices keyed by `"<plant>.<device>"` (both via
dict comprehensions, so a repeated name silently overwrites), then each
computed plant's `power` dict merged into its plant entry —
`result["plants"][plant.name]["power"] = value["power"]`, whose indexing
raises `KeyError` if the plant name is absent. -/
def normalize (plant_data : List PlantReadingObj) (device_data : List DeviceReadingObj)
    (computed : List (Plant × PowerMetrics)) : Except String ExportRecord := do
  let plantsDict :=
    dictOf (plant_data.map (fun p => (p.plant.name, data_to_dict p.classProps p.members)))
  let plantsDict ← computed.foldlM
    (fun acc pm =>
      match dictGet acc pm.1.name with
      | none => Except.error "KeyError"
      | some entry =>
        Except.ok (dictSet acc pm.1.name (dictSet entry "power" (.dict (powerDict pm.2)))))
    plantsDict
  Except.ok
    { plants := plantsDict
      devices := dictOf (device_data.map (fun d =>
        (d.device.plant.name ++ "." ++ d.device.name, data_to_dict d.classProps d.members))) }

/-! ### The device registry `get_devices` (lines 14-42) -/

/-- The outcome of reading and deserializing the cache file: a JSON syntax
error (`json.JSONDecodeError`, the only exception line 31 catches), an
exception raised while `pyhfs.Plant.from_list` rebuilds plants from valid
JSON, or the reconstructed plants. -/
inductive CacheParse where
  | jsonError : String → CacheParse
  | structError : String → CacheParse
  | plants : List Plant → CacheParse
deriving DecidableEq

/-- A write of the cache file: the serialized plant list and the `indent`
passed to `json.dump`. The `pyhfs` serialization `plant.data` is modelled as
the plant record itself. -/
structure CacheWrite where
  data : List Plant
  indent : Nat
deriving DecidableEq

/-- The environment one `get_devices` run observes: whether the cache file
exists, what parsing it yields, and what the remote client would resolve
(`get_plant_list` + `get_device_list`). -/
structure RegistryEnv where
  fileExists : Bool
  cacheParse : CacheParse
  clientPlants : List Plant
deriving DecidableEq

/-- What one `get_devices` run produces: the returned plants, the cache write
performed (if any), and whether the cache-parse error was logged. -/
structure RegistryResult where
  plants : List Plant
  cacheWrite : Option CacheWrite
  loggedParseError : Bool
deriving DecidableEq

/-- The registry `get_devices` (lines 14-42): try the cache file if it
exists, catching only `json.JSONDecodeError` (logged, leaving `plants` at
`None`); any other exception propagates. If `plants` is still `None`, resolve
remotely and write the cache pretty-printed with `indent=2`. -/
def get_devices (env : RegistryEnv) : Except String RegistryResult :=
  (if env.fileExists then
      match env.cacheParse with
      | .plants ps => Except.ok (some ps, false)
      | .jsonError _ => Except.ok (none, true)
      | .structError e => Except.error e
    else
      Except.ok (none, false) : Except String (Option (List Plant) × Bool)).bind
    (fun st =>
      match st.1 with
      | some ps =>
        Except.ok { plants := ps, cacheWrite := none, loggedParseError := st.2 }
      | none => Except.ok
          { plants := env.clientPlants
            cacheWrite := some { data := env.clientPlants, indent := 2 }
            loggedParseError := st.2 })

/-! ### Concrete inputs used by examples, witnesses and counterexamples -/

/-- The example plant of the spec's scenarios. -/
def plantA : Plant := ⟨1, "PlantA"⟩

/-- A second plant that shares `plantA`'s name but not its identity. -/
def plantB : Plant := ⟨2, "PlantA"⟩

/-- A production-capable reading: `mppt_power = 5.0`. -/
def invReading : DeviceRTData := ⟨⟨10, "inverter", plantA, PRODUCTION⟩, 5, 0, 0⟩

/-- A second production-capable reading for the same plant: `mppt_power = 3.0`. -/
def invReading2 : DeviceRTData := ⟨⟨13, "inverter2", plantA, PRODUCTION⟩, 3, 0, 0⟩

/-- A meter-capable reading: `active_power = -1200` (exporting to grid). -/
def meterReading : DeviceRTData := ⟨⟨11, "meter", plantA, METER⟩, 0, 0, -1200⟩

/-- A battery-capable reading with `ch_discharge_power = 0`. -/
def batReadingZero : DeviceRTData := ⟨⟨12, "battery", plantA, BATTERY⟩, 0, 0, 0⟩

/-- A battery-capable reading discharging: `ch_discharge_power = -800`. -/
def batReadingDis : DeviceRTData := ⟨⟨12, "battery", plantA, BATTERY⟩, 0, -800, 0⟩

/-- The plant-level reading list containing only `plantA`'s reading. -/
def pdA : List PlantRealTimeData := [⟨plantA⟩]

/-- A plant reading object for the normalizer, day_power = 1. -/
def prA1 : PlantReadingObj := ⟨plantA, ["day_power"], [("day_power", .int 1)]⟩

/-- A plant reading object for a distinct plant with the same name, day_power = 2. -/
def prB2 : PlantReadingObj := ⟨plantB, ["day_power"], [("day_power", .int 2)]⟩

/-- Exactly one of two quantities is nonzero (the spec's battery-split
wording). -/
def exactlyOneNonzero (a b : ℚ) : Prop := (a ≠ 0 ∧ b = 0) ∨ (a = 0 ∧ b ≠ 0)

/-! ### Characterization of the scan -/

lemma scanStep_production (s : ScanState) (d : DeviceRTData) :
    (scanStep s d).production = if isProd d then some (d.mppt_power * 1000) else s.production := by
  unfold scanStep
  cases hp : isProd d <;> cases hb : isBat d <;> cases hm : isMeter d <;> simp [hp, hb, hm]

lemma scanStep_meter (s : ScanState) (d : DeviceRTData) :
    (scanStep s d).meter = if isMeter d then some d.active_power else s.meter := by
  unfold scanStep
  cases hp : isProd d <;> cases hb : isBat d <;> cases hm : isMeter d <;> simp [hp, hb, hm]

lemma scanStep_ch (s : ScanState) (d : DeviceRTData) :
    (scanStep s d).ch_battery =
      if isBat d then some (max d.ch_discharge_power 0) else s.ch_battery := by
  unfold scanStep
  cases hp : isProd d <;> cases hb : isBat d <;> cases hm : isMeter d <;> simp [hp, hb, hm]

lemma scanStep_dis (s : ScanState) (d : DeviceRTData) :
    (scanStep s d).dis_battery =
      if isBat d then some (max (-d.ch_discharge_power) 0) else s.dis_battery := by
  unfold scanStep
  cases hp : isProd d <;> cases hb : isBat d <;> cases hm : isMeter d <;> simp [hp, hb, hm]

lemma foldl_scanStep_production (l : List DeviceRTData) (s : ScanState) :
    (l.foldl scanStep s).production =
      match lastSat isProd l with
      | some d => some (d.mppt_power * 1000)
      | none => s.production := by
  induction l generalizing s with
  | nil => rfl
  | cons d l ih =>
    simp only [List.foldl_cons, lastSat, ih]
    cases h : lastSat isProd l with
    | some x => simp
    | none => cases hp : isProd d <;> simp [hp, scanStep_production]

lemma foldl_scanStep_meter (l : List DeviceRTData) (s : ScanState) :
    (l.foldl scanStep s).meter =
      match lastSat isMeter l with
      | some d => some d.active_power
      | none => s.meter := by
  induction l generalizing s with
  | nil => rfl
  | cons d l ih =>
    simp only [List.foldl_cons, lastSat, ih]
    cases h : lastSat isMeter l with
    | some x => simp
    | none => cases hp : isMeter d <;> simp [hp, scanStep_meter]

lemma foldl_scanStep_ch (l : List DeviceRTData) (s : ScanState) :
    (l.foldl scanStep s).ch_battery =
      match lastSat isBat l with
      | some d => some (max d.ch_discharge_power 0)
      | none => s.ch_battery := by
  induction l generalizing s with
  | nil => rfl
  | cons d l ih =>
    simp only [List.foldl_cons, lastSat, ih]
    cases h : lastSat isBat l with
    | some x => simp
    | none => cases hp : isBat d <;> simp [hp, scanStep_ch]

lemma foldl_scanStep_dis (l : List DeviceRTData) (s : ScanState) :
    (l.foldl scanStep s).dis_battery =
      match lastSat isBat l with
      | some d => some (max (-d.ch_discharge_power) 0)
      | none => s.dis_battery := by
  induction l generalizing s with
  | nil => rfl
  | cons d l ih =>
    simp only [List.foldl_cons, lastSat, ih]
    cases h : lastSat isBat l with
    | some x => simp
    | none => cases hp : isBat d <;> simp [hp, scanStep_dis]

lemma scanPlant_production (dd : List DeviceRTData) (plant : Plant) :
    (scanPlant dd plant).production =
      (lastSat isProd (devsOf dd plant)).map (fun d => d.mppt_power * 1000) := by
  unfold scanPlant
  rw [foldl_scanStep_production]
  cases lastSat isProd (devsOf dd plant) <;> rfl

lemma scanPlant_meter (dd : List DeviceRTData) (plant : Plant) :
    (scanPlant dd plant).meter =
      (lastSat isMeter (devsOf dd plant)).map (fun d => d.active_power) := by
  unfold scanPlant
  rw [foldl_scanStep_meter]
  cases lastSat isMeter (devsOf dd plant) <;> rfl

lemma scanPlant_ch (dd : List DeviceRTData) (plant : Plant) :
    (scanPlant dd plant).ch_battery =
      (lastSat isBat (devsOf dd plant)).map (fun d => max d.ch_discharge_power 0) := by
  unfold scanPlant
  rw [foldl_scanStep_ch]
  cases lastSat isBat (devsOf dd plant) <;> rfl

lemma scanPlant_dis (dd : List DeviceRTData) (plant : Plant) :
    (scanPlant dd plant).dis_battery =
      (lastSat isBat (devsOf dd plant)).map (fun d => max (-d.ch_discharge_power) 0) := by
  unfold scanPlant
  rw [foldl_scanStep_dis]
  cases lastSat isBat (devsOf dd plant) <;> rfl

lemma lastSat_isSome (p : DeviceRTData → Bool) (l : List DeviceRTData) :
    (lastSat p l).isSome = l.any p := by
  induction l with
  | nil => rfl
  | cons d l ih =>
    simp only [lastSat, List.any_cons]
    cases h : lastSat p l with
    | some x => rw [h] at ih; simp [← ih]
    | none =>
      rw [h] at ih
      cases hp : p d <;> simp [hp, ← ih]

lemma lastSat_mem {p : DeviceRTData → Bool} {l : List DeviceRTData} {d : DeviceRTData}
    (h : lastSat p l = some d) : d ∈ l ∧ p d = true := by
  induction l with
  | nil => simp [lastSat] at h
  | cons a t ih =>
    simp only [lastSat] at h
    cases ht : lastSat p t with
    | some x =>
      rw [ht] at h
      obtain ⟨h1, h2⟩ := ih (ht.trans h)
      exact ⟨List.mem_cons_of_mem _ h1, h2⟩
    | none =>
      rw [ht] at h
      by_cases hp : p a = true
      · simp [hp] at h
        exact ⟨h ▸ List.mem_cons_self a t, h ▸ hp⟩
      · simp [hp] at h

lemma plantMetrics_isSome (s : ScanState) :
    (plantMetrics s).isSome = (s.production.isSome && s.meter.isSome) := by
  unfold plantMetrics
  cases s.production <;> cases s.meter <;> rfl

lemma lookupPlant_filterMap (l : List Plant) (f : Plant → Option PowerMetrics) (plant : Plant)
    (hl : l.Nodup) :
    lookupPlant (l.filterMap (fun p => (f p).map (fun m => (p, m)))) plant =
      if plant ∈ l then f plant else none := by
  induction l with
  | nil => simp [lookupPlant]
  | cons a t ih =>
    have hn := List.nodup_cons.mp hl
    cases hfa : f a with
    | none =>
      simp only [List.filterMap_cons, hfa, Option.map_none']
      rw [ih hn.2]
      by_cases hpa : plant = a
      · subst hpa
        simp [hn.1, hfa]
      · simp [List.mem_cons, hpa]
    | some m =>
      simp only [List.filterMap_cons, hfa, Option.map_some']
      show (if a = plant then some m else lookupPlant _ plant) = _
      by_cases hpa : a = plant
      · subst hpa
        simp [hfa]
      · rw [if_neg hpa, ih hn.2]
        have hpa' : ¬plant = a := fun h => hpa h.symm
        simp [List.mem_cons, hpa']

lemma lookupPlant_compute (pd : List PlantRealTimeData) (dd : List DeviceRTData) (plant : Plant) :
    lookupPlant (compute_plant_data pd dd) plant =
      if plant ∈ pd.map (·.plant) then plantMetrics (scanPlant dd plant) else none := by
  have h : lookupPlant (compute_plant_data pd dd) plant =
      if plant ∈ plantKeys pd then plantMetrics (scanPlant dd plant) else none :=
    lookupPlant_filterMap (plantKeys pd) (fun q => plantMetrics (scanPlant dd q)) plant
      (by unfold plantKeys; exact List.nodup_dedup _)
  rw [h]
  simp [plantKeys, List.mem_dedup]

lemma plantMetrics_fields {s : ScanState} {p mt : ℚ} (hp : s.production = some p)
    (hm : s.meter = some mt) :
    plantMetrics s = some
      { production := p
        consumption := p - mt - orZero s.ch_battery + orZero s.dis_battery
        consumption_pv :=
          min p (p - mt - orZero s.ch_battery + orZero s.dis_battery + orZero s.ch_battery)
        ch_battery := if s.ch_battery.isSome ∧ s.dis_battery.isSome then s.ch_battery else none
        dis_battery :=
          if s.ch_battery.isSome ∧ s.dis_battery.isSome then s.dis_battery else none } := by
  unfold plantMetrics
  rw [hp, hm]

lemma plantMetrics_inv {s : ScanState} {m : PowerMetrics} (h : plantMetrics s = some m) :
    ∃ p mt, s.production = some p ∧ s.meter = some mt ∧
      m = { production := p
            consumption := p - mt - orZero s.ch_battery + orZero s.dis_battery
            consumption_pv :=
              min p (p - mt - orZero s.ch_battery + orZero s.dis_battery + orZero s.ch_battery)
            ch_battery := if s.ch_battery.isSome ∧ s.dis_battery.isSome then s.ch_battery else none
            dis_battery :=
              if s.ch_battery.isSome ∧ s.dis_battery.isSome then s.dis_battery else none } := by
  cases hp : s.production with
  | none =>
    cases hmt : s.meter with
    | none => unfold plantMetrics at h; rw [hp, hmt] at h; simp at h
    | some mt => unfold plantMetrics at h; rw [hp, hmt] at h; simp at h
  | some p =>
    cases hmt : s.meter with
    | none => unfold plantMetrics at h; rw [hp, hmt] at h; simp at h
    | some mt =>
      refine ⟨p, mt, rfl, rfl, ?_⟩
      rw [plantMetrics_fields hp hmt] at h
      exact (Option.some.inj h).symm

lemma scan_battery_sync (dd : List DeviceRTData) (plant : Plant) :
    (scanPlant dd plant).ch_battery.isSome = (scanPlant dd plant).dis_battery.isSome := by
  rw [scanPlant_ch, scanPlant_dis]
  cases lastSat isBat (devsOf dd plant) <;> rfl

lemma plantMetrics_battery {dd : List DeviceRTData} {plant : Plant} {m : PowerMetrics}
    (hm : plantMetrics (scanPlant dd plant) = some m) :
    m.ch_battery = (scanPlant dd plant).ch_battery ∧
    m.dis_battery = (scanPlant dd plant).dis_battery := by
  rcases plantMetrics_inv hm with ⟨p, mt, hp, hmt, rfl⟩
  have hsync := scan_battery_sync dd plant
  cases hch : (scanPlant dd plant).ch_battery with
  | none =>
    rw [hch] at hsync
    have hdis : (scanPlant dd plant).dis_battery = none := by
      cases hdis : (scanPlant dd plant).dis_battery with
      | none => rfl
      | some e => rw [hdis] at hsync; simp at hsync
    simp [hch, hdis]
  | some c =>
    rw [hch] at hsync
    cases hdis : (scanPlant dd plant).dis_battery with
    | none => rw [hdis] at hsync; simp at hsync
    | some e => simp [hch, hdis]

lemma battery_isSome_iff (dd : List DeviceRTData) (plant : Plant) :
    (scanPlant dd plant).ch_battery.isSome = (devsOf dd plant).any isBat := by
  rw [scanPlant_ch, Option.isSome_map', lastSat_isSome]

/-! ### The claims -/

/-- C1: for every plant in the composer's input (`plant_data`), the result
contains a metrics record for that plant iff both a production-capable and a
meter-capable reading exist among the plant's device readings — otherwise the
plant is entirely absent — and a present record carries the
`ch_battery`/`dis_battery` figures iff a battery-capable reading also
exists. -/
theorem C1_metrics_record_presence (pd : List PlantRealTimeData) (dd : List DeviceRTData)
    (plant : Plant) (hmem : plant ∈ pd.map (·.plant)) :
    ((∃ m, lookupPlant (compute_plant_data pd dd) plant = some m) ↔
      ((∃ d ∈ devsOf dd plant, isProd d) ∧ (∃ d ∈ devsOf dd plant, isMeter d))) ∧
    (∀ m, lookupPlant (compute_plant_data pd dd) plant = some m →
      ((m.ch_battery.isSome ↔ ∃ d ∈ devsOf dd plant, isBat d) ∧
       (m.dis_battery.isSome ↔ ∃ d ∈ devsOf dd plant, isBat d))) := by
  rw [lookupPlant_compute, if_pos hmem]
  constructor
  · rw [← Option.isSome_iff_exists, plantMetrics_isSome,
      scanPlant_production, scanPlant_meter]
    simp [lastSat_isSome, List.any_eq_true]
  · intro m hm
    obtain ⟨hch, hdis⟩ := plantMetrics_battery hm
    rw [hch, hdis, scan_battery_sync, ← List.any_eq_true (l := devsOf dd plant) (p := isBat),
      ← battery_isSome_iff dd plant, scan_battery_sync]
    exact ⟨Iff.rfl, Iff.rfl⟩

/-- C1 witness: at the concrete input with a production and a meter reading
and no battery reading, the record is present and has no battery figures. -/
theorem C1_witness :
    ((∃ m, lookupPlant (compute_plant_data pdA [invReading, meterReading]) plantA = some m) ↔
      ((∃ d ∈ devsOf [invReading, meterReading] plantA, isProd d) ∧
       (∃ d ∈ devsOf [invReading, meterReading] plantA, isMeter d))) ∧
    (∀ m, lookupPlant (compute_plant_data pdA [invReading, meterReading]) plantA = some m →
      ((m.ch_battery.isSome ↔ ∃ d ∈ devsOf [invReading, meterReading] plantA, isBat d) ∧
       (m.dis_battery.isSome ↔ ∃ d ∈ devsOf [invReading, meterReading] plantA, isBat d))) :=
  C1_metrics_record_presence pdA [invReading, meterReading] plantA (by decide)

lemma orZero_ite_ch (dd : List DeviceRTData) (plant : Plant) :
    orZero (if (scanPlant dd plant).ch_battery.isSome ∧ (scanPlant dd plant).dis_battery.isSome
      then (scanPlant dd plant).ch_battery else none) = orZero (scanPlant dd plant).ch_battery := by
  have hsync := scan_battery_sync dd plant
  cases hch : (scanPlant dd plant).ch_battery with
  | none => simp [hch]
  | some c =>
    rw [hch] at hsync
    cases hdis : (scanPlant dd plant).dis_battery with
    | none => rw [hdis] at hsync; simp at hsync
    | some e => simp [hch, hdis]

lemma orZero_ite_dis (dd : List DeviceRTData) (plant : Plant) :
    orZero (if (scanPlant dd plant).ch_battery.isSome ∧ (scanPlant dd plant).dis_battery.isSome
      then (scanPlant dd plant).dis_battery else none) = orZero (scanPlant dd plant).dis_battery := by
  have hsync := scan_battery_sync dd plant
  cases hch : (scanPlant dd plant).ch_battery with
  | none =>
    rw [hch] at hsync
    cases hdis : (scanPlant dd plant).dis_battery with
    | none => simp [hch, hdis]
    | some e => rw [hdis] at hsync; simp at hsync
  | some c =>
    rw [hch] at hsync
    cases hdis : (scanPlant dd plant).dis_battery with
    | none => rw [hdis] at hsync; simp at hsync
    | some e => simp [hch, hdis]

lemma lookup_ex1 : lookupPlant (compute_plant_data pdA [invReading, meterReading]) plantA =
    some { production := 5000, consumption := 6200, consumption_pv := 5000,
           ch_battery := none, dis_battery := none } := by
  rw [lookupPlant_compute,
    show scanPlant [invReading, meterReading] plantA =
      { production := some ((5 : ℚ) * 1000), ch_battery := none, dis_battery := none,
        meter := some (-1200) } from rfl]
  norm_num [pdA, plantA, plantMetrics, orZero, min_def]

/-- C2: an emitted record's `production` is the production reading's
`mppt_power * 1000`, its `consumption` is
`production - meter - (ch_battery or 0) + (dis_battery or 0)` with `meter` the
meter reading's signed `active_power`; in particular the spec's example plant
(production `mppt_power = 5.0`, meter `active_power = -1200`, no battery)
yields `production = 5000`, `consumption = 6200`, `consumption_pv = 5000` and
no battery keys. -/
theorem C2_emitted_value_formulas (pd : List PlantRealTimeData) (dd : List DeviceRTData)
    (plant : Plant) (m : PowerMetrics)
    (hm : lookupPlant (compute_plant_data pd dd) plant = some m) :
    (∃ dp, lastSat isProd (devsOf dd plant) = some dp ∧
      m.production = dp.mppt_power * 1000) ∧
    (∃ dm, lastSat isMeter (devsOf dd plant) = some dm ∧
      m.consumption =
        m.production - dm.active_power - orZero m.ch_battery + orZero m.dis_battery) ∧
    lookupPlant (compute_plant_data pdA [invReading, meterReading]) plantA =
      some { production := 5000, consumption := 6200, consumption_pv := 5000,
             ch_battery := none, dis_battery := none } := by
  have hmem : plant ∈ pd.map (·.plant) := by
    by_contra hn
    rw [lookupPlant_compute, if_neg hn] at hm
    exact Option.noConfusion hm
  rw [lookupPlant_compute, if_pos hmem] at hm
  obtain ⟨hbc, hbd⟩ := plantMetrics_battery hm
  obtain ⟨p, mt, hp, hmt, hmeq⟩ := plantMetrics_inv hm
  refine ⟨?_, ?_, lookup_ex1⟩
  · rw [scanPlant_production] at hp
    obtain ⟨dp, hdp, hval⟩ := Option.map_eq_some'.mp hp
    exact ⟨dp, hdp, by rw [hmeq]; exact hval.symm⟩
  · rw [scanPlant_meter] at hmt
    obtain ⟨dm, hdm, hval⟩ := Option.map_eq_some'.mp hmt
    refine ⟨dm, hdm, ?_⟩
    rw [hmeq] at hbc hbd ⊢
    simp only at hbc hbd ⊢
    rw [hbc, hbd, hval]

/-- C2 witness: the theorem applied at the spec's example input and record. -/
theorem C2_witness :
    (∃ dp, lastSat isProd (devsOf [invReading, meterReading] plantA) = some dp ∧
      ({ production := 5000, consumption := 6200, consumption_pv := 5000,
         ch_battery := none, dis_battery := none } : PowerMetrics).production =
        dp.mppt_power * 1000) ∧
    (∃ dm, lastSat isMeter (devsOf [invReading, meterReading] plantA) = some dm ∧
      ({ production := 5000, consumption := 6200, consumption_pv := 5000,
         ch_battery := none, dis_battery := none } : PowerMetrics).consumption =
        ({ production := 5000, consumption := 6200, consumption_pv := 5000,
           ch_battery := none, dis_battery := none } : PowerMetrics).production -
          dm.active_power -
          orZero ({ production := 5000, consumption := 6200, consumption_pv := 5000,
                    ch_battery := none, dis_battery := none } : PowerMetrics).ch_battery +
          orZero ({ production := 5000, consumption := 6200, consumption_pv := 5000,
                    ch_battery := none, dis_battery := none } : PowerMetrics).dis_battery) ∧
    lookupPlant (compute_plant_data pdA [invReading, meterReading]) plantA =
      some { production := 5000, consumption := 6200, consumption_pv := 5000,
             ch_battery := none, dis_battery := none } :=
  C2_emitted_value_formulas pdA [invReading, meterReading] plantA
    { production := 5000, consumption := 6200, consumption_pv := 5000,
      ch_battery := none, dis_battery := none } lookup_ex1

/-- C3 counterexample: with the same production- and meter-capable readings
but an empty `plant_data`, the composer returns the empty result — the claim's
unconditional "returns a metrics record for that plant" fails. -/
theorem C3_counterexample :
    (∃ d ∈ devsOf [invReading, meterReading] plantA, isProd d) ∧
    (∃ d ∈ devsOf [invReading, meterReading] plantA, isMeter d) ∧
    compute_plant_data [] [invReading, meterReading] = [] ∧
    lookupPlant (compute_plant_data [] [invReading, meterReading]) plantA = none :=
  ⟨⟨invReading, by decide, by decide⟩, ⟨meterReading, by decide, by decide⟩, rfl, rfl⟩

/-- C3 (amended): for a plant that also has a plant-level reading in
`plant_data`, production- and meter-capable readings guarantee an emitted
record, and in it `consumption_pv = min production (consumption + (ch_battery
or 0))`, hence `consumption_pv ≤ production`. -/
theorem C3_consumption_pv_cap (pd : List PlantRealTimeData) (dd : List DeviceRTData)
    (plant : Plant) (hmem : plant ∈ pd.map (·.plant))
    (hprod : ∃ d ∈ devsOf dd plant, isProd d)
    (hmet : ∃ d ∈ devsOf dd plant, isMeter d) :
    ∃ m, lookupPlant (compute_plant_data pd dd) plant = some m ∧
      m.consumption_pv = min m.production (m.consumption + orZero m.ch_battery) ∧
      m.consumption_pv ≤ m.production := by
  have hp : (scanPlant dd plant).production.isSome := by
    rw [scanPlant_production, Option.isSome_map', lastSat_isSome, List.any_eq_true]
    exact hprod
  have hmt : (scanPlant dd plant).meter.isSome := by
    rw [scanPlant_meter, Option.isSome_map', lastSat_isSome, List.any_eq_true]
    exact hmet
  obtain ⟨p, hp⟩ := Option.isSome_iff_exists.mp hp
  obtain ⟨mt, hmt⟩ := Option.isSome_iff_exists.mp hmt
  have hrec := plantMetrics_fields hp hmt
  refine ⟨_, by rw [lookupPlant_compute, if_pos hmem, hrec], ?_, ?_⟩
  · simp only [orZero_ite_ch]
  · exact min_le_left _ _

/-- C3 witness: the amended claim at the spec's example input. -/
theorem C3_witness :
    ∃ m, lookupPlant (compute_plant_data pdA [invReading, meterReading]) plantA = some m ∧
      m.consumption_pv = min m.production (m.consumption + orZero m.ch_battery) ∧
      m.consumption_pv ≤ m.production :=
  C3_consumption_pv_cap pdA [invReading, meterReading] plantA (by decide)
    ⟨invReading, by decide, by decide⟩ ⟨meterReading, by decide, by decide⟩

/-- C4 counterexample: a battery reading with `ch_discharge_power = 0` yields
`ch_battery = 0` and `dis_battery = 0`, so "exactly one of the two is
nonzero" fails. -/
theorem C4_counterexample :
    batReadingZero.ch_discharge_power = 0 ∧ isBat batReadingZero = true ∧
    (scanStep initScan batReadingZero).ch_battery = some 0 ∧
    (scanStep initScan batReadingZero).dis_battery = some 0 ∧
    ¬exactlyOneNonzero 0 0 := by
  refine ⟨rfl, by decide, ?_, ?_, by simp [exactlyOneNonzero]⟩
  · rw [scanStep_ch, if_pos (by decide : isBat batReadingZero = true)]
    norm_num [batReadingZero]
  · rw [scanStep_dis, if_pos (by decide : isBat batReadingZero = true)]
    norm_num [batReadingZero]

/-- C4 (amended): scanning a battery-capable reading with signed
`ch_discharge_power = x` sets `ch_battery = max x 0` and
`dis_battery = max (-x) 0`; both are nonnegative, at most one is nonzero
(exactly one when `x ≠ 0`), and `ch_battery - dis_battery = x`. -/
theorem C4_battery_split (s : ScanState) (d : DeviceRTData) (hb : isBat d = true) :
    ∃ ch dis, (scanStep s d).ch_battery = some ch ∧ (scanStep s d).dis_battery = some dis ∧
      ch = max d.ch_discharge_power 0 ∧ dis = max (-d.ch_discharge_power) 0 ∧
      0 ≤ ch ∧ 0 ≤ dis ∧ ¬(ch ≠ 0 ∧ dis ≠ 0) ∧ ch - dis = d.ch_discharge_power ∧
      (d.ch_discharge_power ≠ 0 → exactlyOneNonzero ch dis) := by
  refine ⟨max d.ch_discharge_power 0, max (-d.ch_discharge_power) 0,
    by rw [scanStep_ch, if_pos hb], by rw [scanStep_dis, if_pos hb],
    rfl, rfl, le_max_right _ _, le_max_right _ _, ?_, ?_, ?_⟩
  · rcases le_total d.ch_discharge_power 0 with h | h
    · rw [max_eq_right h]
      exact fun hc => hc.1 rfl
    · rw [max_eq_right (neg_nonpos.mpr h)]
      exact fun hc => hc.2 rfl
  · rcases le_total d.ch_discharge_power 0 with h | h
    · rw [max_eq_right h, max_eq_left (neg_nonneg.mpr h)]
      ring
    · rw [max_eq_left h, max_eq_right (neg_nonpos.mpr h)]
      ring
  · intro hx
    rcases lt_or_gt_of_ne hx with h | h
    · right
      rw [max_eq_right h.le, max_eq_left (neg_nonneg.mpr h.le)]
      exact ⟨rfl, neg_ne_zero.mpr hx⟩
    · left
      rw [max_eq_left h.le, max_eq_right (neg_nonpos.mpr h.le)]
      exact ⟨hx, rfl⟩

/-- C4 witness: the split at the spec's discharging example,
`ch_discharge_power = -800`. -/
theorem C4_witness :
    ∃ ch dis, (scanStep initScan batReadingDis).ch_battery = some ch ∧
      (scanStep initScan batReadingDis).dis_battery = some dis ∧
      ch = max batReadingDis.ch_discharge_power 0 ∧
      dis = max (-batReadingDis.ch_discharge_power) 0 ∧
      0 ≤ ch ∧ 0 ≤ dis ∧ ¬(ch ≠ 0 ∧ dis ≠ 0) ∧
      ch - dis = batReadingDis.ch_discharge_power ∧
      (batReadingDis.ch_discharge_power ≠ 0 → exactlyOneNonzero ch dis) :=
  C4_battery_split initScan batReadingDis (by decide)

/-- C5 counterexample: two plant readings whose distinct plants share one
name normalize without any error, the result holding a single entry with the
second reading's data — the first is silently overwritten, no defined error
is raised. -/
theorem C5_counterexample :
    prA1.plant ≠ prB2.plant ∧ prA1.plant.name = prB2.plant.name ∧
    normalize [prA1, prB2] [] [] =
      Except.ok { plants := [("PlantA", [("day_power", PyVal.int 2)])], devices := [] } :=
  ⟨by decide, rfl, rfl⟩

/-- C5 (amended): normalization does not fail on a duplicated plant name —
the plants mapping is built by a dict comprehension, so the last reading with
the name silently wins and the result holds one entry for it; name
uniqueness is an unchecked precondition. -/
theorem C5_silent_overwrite (r1 r2 : PlantReadingObj) (h : r1.plant.name = r2.plant.name) :
    normalize [r1, r2] [] [] =
      Except.ok { plants := [(r2.plant.name, data_to_dict r2.classProps r2.members)],
                  devices := [] } := by
  unfold normalize dictOf
  simp [dictSet, h]

/-- C5 witness: the amended claim at the two concrete same-named plants. -/
theorem C5_witness :
    normalize [prA1, prB2] [] [] =
      Except.ok { plants := [(prB2.plant.name, data_to_dict prB2.classProps prB2.members)],
                  devices := [] } :=
  C5_silent_overwrite prA1 prB2 rfl

/-- C6: when the cache file exists but fails to parse as JSON, `get_devices`
logs the error, resolves remotely, writes the fresh data to the cache
pretty-printed (`indent = 2`) and returns it — the run does not fail. -/
theorem C6_cache_parse_fallback (env : RegistryEnv) (e : String)
    (hex : env.fileExists = true) (hp : env.cacheParse = CacheParse.jsonError e) :
    get_devices env = Except.ok
      { plants := env.clientPlants
        cacheWrite := some { data := env.clientPlants, indent := 2 }
        loggedParseError := true } := by
  simp [get_devices, hex, hp, Except.bind]

/-- C6 witness: the fallback at a concrete corrupt cache file. -/
theorem C6_witness :
    get_devices ⟨true, CacheParse.jsonError "bad", [plantA]⟩ = Except.ok
      { plants := [plantA]
        cacheWrite := some { data := [plantA], indent := 2 }
        loggedParseError := true } :=
  C6_cache_parse_fallback ⟨true, CacheParse.jsonError "bad", [plantA]⟩ "bad" rfl rfl

/-- C7: the composer only emits records for plants with a plant-level
reading — every result key comes from `plant_data`, and a plant with
production- and meter-capable readings but no plant-level reading is absent
from the result. -/
theorem C7_plant_reading_required (pd : List PlantRealTimeData) (dd : List DeviceRTData) :
    (∀ plant m, (plant, m) ∈ compute_plant_data pd dd → plant ∈ pd.map (·.plant)) ∧
    (∀ plant, (∃ d ∈ devsOf dd plant, isProd d) → (∃ d ∈ devsOf dd plant, isMeter d) →
      plant ∉ pd.map (·.plant) →
      lookupPlant (compute_plant_data pd dd) plant = none) := by
  constructor
  · intro plant m hmem
    unfold compute_plant_data at hmem
    obtain ⟨q, hq, heq⟩ := List.mem_filterMap.mp hmem
    obtain ⟨a, -, hpair⟩ := Option.map_eq_some'.mp heq
    obtain ⟨rfl, -⟩ := Prod.mk.injEq .. |>.mp hpair
    unfold plantKeys at hq
    exact List.mem_dedup.mp hq
  · intro plant _ _ hn
    rw [lookupPlant_compute, if_neg hn]

/-- C8: the composer, the exporter and the normalization tail are pure
functions — identical inputs always produce identical outputs. -/
theorem C8_pure_functions :
    (∀ pd pd' dd dd', pd = pd' → dd = dd' →
      compute_plant_data pd dd = compute_plant_data pd' dd') ∧
    (∀ cp cp' mem mem', cp = cp' → mem = mem' →
      data_to_dict cp mem = data_to_dict cp' mem') ∧
    (∀ pr pr' dr dr' cd cd', pr = pr' → dr = dr' → cd = cd' →
      normalize pr dr cd = normalize pr' dr' cd') := by
  refine ⟨?_, ?_, ?_⟩ <;> (intros; subst_vars; rfl)

lemma lookup_ex2 :
    lookupPlant (compute_plant_data pdA [invReading, invReading2, meterReading]) plantA =
      some { production := 3000, consumption := 4200, consumption_pv := 3000,
             ch_battery := none, dis_battery := none } := by
  rw [lookupPlant_compute,
    show scanPlant [invReading, invReading2, meterReading] plantA =
      { production := some ((3 : ℚ) * 1000), ch_battery := none, dis_battery := none,
        meter := some (-1200) } from rfl]
  norm_num [pdA, plantA, plantMetrics, orZero, min_def]

/-- C9: an emitted record's `production` comes from the last-scanned
production-capable reading alone — `mppt_power * 1000` of that reading, with
no aggregation over the plant's other production devices. -/
theorem C9_last_production_wins (pd : List PlantRealTimeData) (dd : List DeviceRTData)
    (plant : Plant) (m : PowerMetrics) (dp : DeviceRTData)
    (hm : lookupPlant (compute_plant_data pd dd) plant = some m)
    (hlast : lastSat isProd (devsOf dd plant) = some dp) :
    m.production = dp.mppt_power * 1000 ∧ dp ∈ devsOf dd plant ∧ isProd dp = true := by
  have hmem : plant ∈ pd.map (·.plant) := by
    by_contra hn
    rw [lookupPlant_compute, if_neg hn] at hm
    exact Option.noConfusion hm
  rw [lookupPlant_compute, if_pos hmem] at hm
  obtain ⟨p, mt, hp, hmt, hmeq⟩ := plantMetrics_inv hm
  rw [scanPlant_production, hlast] at hp
  have hval := Option.some.inj hp
  obtain ⟨hdp, hprod⟩ := lastSat_mem hlast
  exact ⟨by rw [hmeq]; exact hval.symm, hdp, hprod⟩

/-- C9 witness: with two production-capable readings (`mppt_power` 5 then 3)
the emitted production is 3000 — the later reading's value, not a sum. -/
theorem C9_witness :
    ({ production := 3000, consumption := 4200, consumption_pv := 3000,
       ch_battery := none, dis_battery := none } : PowerMetrics).production =
        invReading2.mppt_power * 1000 ∧
    invReading2 ∈ devsOf [invReading, invReading2, meterReading] plantA ∧
    isProd invReading2 = true :=
  C9_last_production_wins pdA [invReading, invReading2, meterReading] plantA
    { production := 3000, consumption := 4200, consumption_pv := 3000,
      ch_battery := none, dis_battery := none } invReading2 lookup_ex2 (by decide)

/-- C10: the registry's fallback covers only JSON syntax errors — an
exception while rebuilding plants from syntactically valid JSON propagates
out of `get_devices` and aborts the run without touching the cache. -/
theorem C10_reconstruction_error_propagates (env : RegistryEnv) (e : String)
    (hex : env.fileExists = true) (hp : env.cacheParse = CacheParse.structError e) :
    get_devices env = Except.error e := by
  simp [get_devices, hex, hp, Except.bind]

/-- C10 witness: a concrete structurally invalid cache aborts the run. -/
theorem C10_witness :
    get_devices ⟨true, CacheParse.structError "KeyError", [plantA]⟩ =
      Except.error "KeyError" :=
  C10_reconstruction_error_propagates ⟨true, CacheParse.structError "KeyError", [plantA]⟩
    "KeyError" rfl rfl

end FusionSolar
